import Mathlib

/-!
Verification of the checkout calculator of this repository.

The code under scrutiny is `create_order` in `src/main.py` (the
`/checkout/create-order` endpoint), together with the document shapes
declared in `src/schemas.py`.  The embedding below models Python floats
as rationals (ℚ), Python ints as ℤ, the Mongo `product` collection as a
lookup function from the requested id to an optional product document,
and the Mongo `coupon` collection as a list of coupon documents searched
in natural order (`find_one` returns the first match).
-/

set_option autoImplicit false

namespace Checkout

/-- Product document, the fields `create_order` reads
(`src/schemas.py`, `Product`): `title`, `price`, optional `sale_price`,
and the image list, modelled by the list of image urls. -/
structure Product where
  title : String
  price : ℚ
  sale_price : Option ℚ
  images : List String
  deriving Repr, DecidableEq

/-- One requested line item (`src/main.py`, `CartItem`):
`product_id: str`, `quantity: int`. -/
structure CartItem where
  product_id : String
  quantity : ℤ
  deriving Repr, DecidableEq

/-- Coupon document (`src/schemas.py`, `Coupon`; created through
`src/main.py`, `CouponBody`, whose `type` field is a plain string). -/
structure Coupon where
  code : String
  type : String
  value : ℚ
  min_order : ℚ
  active : Bool
  expires_at : Option ℤ
  deriving Repr, DecidableEq

/-- One priced output line item (`src/schemas.py`, `OrderItem`): the
dict appended to `order_items` in `create_order`. -/
structure OrderItem where
  product_id : String
  title : String
  price : ℚ
  quantity : ℤ
  image : Option String
  deriving Repr, DecidableEq

/-- The order-total part of the document `create_order` builds and
persists: the priced items, the rounded amount, the currency and the
applied coupon code (`src/main.py` lines 414-426). -/
structure OrderResult where
  items : List OrderItem
  amount : ℚ
  currency : String
  coupon : Option String
  deriving Repr, DecidableEq

/-- The only failure of the calculator: `raise HTTPException(400,
"Product not found")` in `src/main.py` line 395. -/
inductive CheckoutError where
  | productNotFound
  deriving Repr, DecidableEq

/-- Unit price of a resolved product, `src/main.py` line 396:
`price = float(prod.get("sale_price") or prod.get("price"))`.
Python `or` falls through on falsy values, so a `sale_price` that is
absent, `None` or `0` yields the list price. -/
def unitPrice (p : Product) : ℚ :=
  match p.sale_price with
  | some sp => if sp = 0 then p.price else sp
  | none => p.price

/-- The dict appended to `order_items` for one resolved item,
`src/main.py` lines 398-404.  The `image` field is the url of the first
image when the image list is non-empty, else `None`. -/
def resolveItem (it : CartItem) (p : Product) : OrderItem :=
  { product_id := it.product_id
    title := p.title
    price := unitPrice p
    quantity := it.quantity
    image := p.images.head? }

/-- The item loop of `create_order`, `src/main.py` lines 390-404:
running subtotal `total` and accumulated `order_items`, aborting with
`productNotFound` at the first item whose product lookup is absent. -/
def resolveItems (pf : String → Option Product) :
    List CartItem → ℚ → List OrderItem →
    Except CheckoutError (ℚ × List OrderItem)
  | [], total, acc => .ok (total, acc)
  | it :: rest, total, acc =>
    match pf it.product_id with
    | none => .error .productNotFound
    | some p =>
        resolveItems pf rest (total + unitPrice p * (it.quantity : ℚ))
          (acc ++ [resolveItem it p])

/-- Python's `str.upper()` as used on coupon codes in `src/main.py`
line 407 (`body.coupon.upper()`): uppercase every character (the coupon
codes in play are ASCII, where `Char.toUpper` agrees with Python). -/
def pyUpper (s : String) : String := String.mk (s.data.map Char.toUpper)

/-- The coupon lookup `db["coupon"].find_one({"code": code, "active":
True})`, `src/main.py` line 407: first coupon in the collection whose
stored code equals the canonicalized code and which is active. -/
def findCoupon (code : String) (coupons : List Coupon) : Option Coupon :=
  coupons.find? (fun c => c.code == code && c.active)

/-- The discount arithmetic, `src/main.py` lines 409-412: percent
coupons scale the total, every other type is subtracted flat, and both
branches clamp at zero. -/
def applyCoupon (total : ℚ) (c : Coupon) : ℚ :=
  if c.type = "percent" then max 0 (total * (1 - c.value / 100))
  else max 0 (total - c.value)

/-- The coupon block of `create_order`, `src/main.py` lines 405-413:
`if body.coupon:` is Python truthiness, so `None` and the empty string
both skip the block; otherwise the code is uppercased, looked up among
active coupons, and applied when the subtotal reaches the threshold.
Returns the (possibly discounted) total and the applied coupon's stored
code. -/
def couponStep (total : ℚ) (coupon : Option String) (coupons : List Coupon) :
    ℚ × Option String :=
  match coupon with
  | none => (total, none)
  | some code =>
    if code = "" then (total, none)
    else
      match findCoupon (pyUpper code) coupons with
      | some c =>
        if c.min_order ≤ total then (applyCoupon total c, some c.code)
        else (total, none)
      | none => (total, none)

/-- Rounding to two decimal places, `round(total, 2)` in `src/main.py`
line 417 (the spec leaves the rounding mode unpinned; `round` here is
round-half-up on rationals). -/
def round2 (q : ℚ) : ℚ := (round (q * 100) : ℚ) / 100

/-- The checkout calculator `create_order`, `src/main.py` lines
387-428: resolve and price every item (abort on a missing product),
conditionally apply one coupon, round, and return the order document
fields the caller observes.  The insert into `db["order"]` happens only
on the `.ok` path, after every check, so an error result means nothing
was persisted. -/
def create_order (items : List CartItem) (coupon : Option String)
    (pf : String → Option Product) (coupons : List Coupon) :
    Except CheckoutError OrderResult :=
  match resolveItems pf items 0 [] with
  | .error e => .error e
  | .ok (total, order_items) =>
    let st := couponStep total coupon coupons
    .ok { items := order_items
          amount := round2 st.1
          currency := "INR"
          coupon := st.2 }

/-- Cost contributed by one requested item: unit price of its resolved
product times the quantity (0 when the product is unresolvable; only
used under a hypothesis that every product resolves). -/
def itemCost (pf : String → Option Product) (it : CartItem) : ℚ :=
  match pf it.product_id with
  | some p => unitPrice p * (it.quantity : ℚ)
  | none => 0

/-- The order subtotal: sum of the per-item costs. -/
def checkoutSubtotal (pf : String → Option Product)
    (items : List CartItem) : ℚ :=
  (items.map (itemCost pf)).sum

/-- The priced line item for one request (with a junk placeholder when
the product is unresolvable; only used under a hypothesis that every
product resolves). -/
def resolveItemOpt (pf : String → Option Product) (it : CartItem) :
    OrderItem :=
  match pf it.product_id with
  | some p => resolveItem it p
  | none =>
    { product_id := it.product_id, title := "", price := 0,
      quantity := it.quantity, image := none }

/-! ### Characterization lemmas for the item loop -/

theorem resolveItems_ok_iff (pf : String → Option Product)
    (items : List CartItem) (total : ℚ) (acc : List OrderItem)
    (t : ℚ) (os : List OrderItem) :
    resolveItems pf items total acc = .ok (t, os) ↔
      (∀ it ∈ items, (pf it.product_id).isSome) ∧
      t = total + checkoutSubtotal pf items ∧
      os = acc ++ items.map (resolveItemOpt pf) := by
  induction items generalizing total acc with
  | nil =>
    simp only [resolveItems, checkoutSubtotal, List.map_nil, List.sum_nil,
      add_zero, List.append_nil, List.not_mem_nil, false_implies,
      implies_true, true_and, Except.ok.injEq, Prod.mk.injEq]
    constructor
    · rintro ⟨h1, h2⟩
      exact ⟨h1.symm, h2.symm⟩
    · rintro ⟨h1, h2⟩
      exact ⟨h1.symm, h2.symm⟩
  | cons it rest ih =>
    cases hpf : pf it.product_id with
    | none => simp [resolveItems, hpf]
    | some p =>
      have hcost : itemCost pf it = unitPrice p * (it.quantity : ℚ) := by
        simp [itemCost, hpf]
      have hres : resolveItemOpt pf it = resolveItem it p := by
        simp [resolveItemOpt, hpf]
      simp only [resolveItems, hpf, ih, checkoutSubtotal, List.map_cons,
        List.sum_cons, hcost, hres, List.forall_mem_cons, Option.isSome_some,
        List.append_assoc, List.singleton_append, add_assoc, true_and]

theorem resolveItems_error_iff (pf : String → Option Product)
    (items : List CartItem) (total : ℚ) (acc : List OrderItem) :
    resolveItems pf items total acc = .error .productNotFound ↔
      ∃ it ∈ items, pf it.product_id = none := by
  induction items generalizing total acc with
  | nil => simp [resolveItems]
  | cons it rest ih =>
    cases hpf : pf it.product_id with
    | none => simp [resolveItems, hpf]
    | some p => simp [resolveItems, hpf, ih]

theorem create_order_ok (items : List CartItem) (coupon : Option String)
    (pf : String → Option Product) (coupons : List Coupon)
    (hall : ∀ it ∈ items, (pf it.product_id).isSome) :
    create_order items coupon pf coupons =
      .ok { items := items.map (resolveItemOpt pf)
            amount :=
              round2 (couponStep (checkoutSubtotal pf items) coupon coupons).1
            currency := "INR"
            coupon :=
              (couponStep (checkoutSubtotal pf items) coupon coupons).2 } := by
  have h : resolveItems pf items 0 [] =
      .ok (checkoutSubtotal pf items, items.map (resolveItemOpt pf)) := by
    rw [resolveItems_ok_iff]
    exact ⟨hall, by ring, by simp⟩
  simp [create_order, h]

theorem create_order_error_iff (items : List CartItem)
    (coupon : Option String) (pf : String → Option Product)
    (coupons : List Coupon) :
    create_order items coupon pf coupons = .error .productNotFound ↔
      ∃ it ∈ items, pf it.product_id = none := by
  constructor
  · intro h
    cases hres : resolveItems pf items 0 [] with
    | error e =>
      cases e
      exact (resolveItems_error_iff pf items 0 []).mp hres
    | ok p =>
      simp [create_order, hres] at h
  · rintro ⟨it, hmem, hnone⟩
    have herr : resolveItems pf items 0 [] = .error .productNotFound :=
      (resolveItems_error_iff pf items 0 []).mpr ⟨it, hmem, hnone⟩
    simp [create_order, herr]

/-- Inversion of a successful checkout: every product resolved, and the
result is exactly the record `create_order` builds from the subtotal. -/
theorem create_order_ok_inv (items : List CartItem) (coupon : Option String)
    (pf : String → Option Product) (coupons : List Coupon)
    (res : OrderResult)
    (h : create_order items coupon pf coupons = .ok res) :
    (∀ it ∈ items, (pf it.product_id).isSome) ∧
    res = { items := items.map (resolveItemOpt pf)
            amount :=
              round2 (couponStep (checkoutSubtotal pf items) coupon coupons).1
            currency := "INR"
            coupon :=
              (couponStep (checkoutSubtotal pf items) coupon coupons).2 } := by
  cases hres : resolveItems pf items 0 [] with
  | error e => simp [create_order, hres] at h
  | ok p =>
    obtain ⟨t, os⟩ := p
    obtain ⟨hall, ht, hos⟩ := (resolveItems_ok_iff pf items 0 [] t os).mp hres
    refine ⟨hall, ?_⟩
    simp only [create_order, hres, Except.ok.injEq] at h
    rw [← h, ht, hos]
    simp

/-- The unit price of a product with a non-negative list price and a
non-negative sale price is non-negative. -/
theorem unitPrice_nonneg (p : Product) (hp : 0 ≤ p.price)
    (hsp : ∀ sp, p.sale_price = some sp → 0 ≤ sp) : 0 ≤ unitPrice p := by
  unfold unitPrice
  cases hs : p.sale_price with
  | none => exact hp
  | some sp =>
    by_cases h0 : sp = 0
    · simpa [h0] using hp
    · simpa [h0] using hsp sp hs

/-- Rounding to two decimals preserves non-negativity. -/
theorem round2_nonneg (q : ℚ) (h : 0 ≤ q) : 0 ≤ round2 q := by
  unfold round2
  have hr : (0 : ℤ) ≤ round (q * 100) := by
    rw [round_eq]
    exact Int.floor_nonneg.mpr (by positivity)
  have : (0 : ℚ) ≤ (round (q * 100) : ℚ) := by exact_mod_cast hr
  positivity

/-- A subtotal over non-negatively priced products and non-negative
quantities is non-negative. -/
theorem checkoutSubtotal_nonneg (pf : String → Option Product)
    (items : List CartItem)
    (hprice : ∀ s p, pf s = some p →
      0 ≤ p.price ∧ ∀ sp, p.sale_price = some sp → 0 ≤ sp)
    (hqty : ∀ it ∈ items, 0 ≤ it.quantity) :
    0 ≤ checkoutSubtotal pf items := by
  unfold checkoutSubtotal
  apply List.sum_nonneg
  intro x hx
  obtain ⟨it, hit, rfl⟩ := List.mem_map.mp hx
  unfold itemCost
  cases hpf : pf it.product_id with
  | none => exact le_refl 0
  | some p =>
    obtain ⟨hp, hsp⟩ := hprice it.product_id p hpf
    have hq : (0 : ℚ) ≤ (it.quantity : ℚ) := by
      exact_mod_cast hqty it hit
    exact mul_nonneg (unitPrice_nonneg p hp hsp) hq

/-- The total leaving the coupon block is non-negative whenever the
total entering it is. -/
theorem couponStep_fst_nonneg (total : ℚ) (coupon : Option String)
    (coupons : List Coupon) (h : 0 ≤ total) :
    0 ≤ (couponStep total coupon coupons).1 := by
  unfold couponStep
  cases coupon with
  | none => exact h
  | some code =>
    by_cases hc : code = ""
    · simpa [hc] using h
    · simp only [hc, if_false]
      cases findCoupon (pyUpper code) coupons with
      | none => exact h
      | some c =>
        by_cases hth : c.min_order ≤ total
        · simp only [hth, if_true]
          unfold applyCoupon
          by_cases hty : c.type = "percent" <;> simp [hty, le_max_iff]
        · simpa [hth] using h

/-- The coupon block only looks at the canonicalized code: two supplied
codes with the same uppercasing behave identically. -/
theorem couponStep_code_congr (total : ℚ) (coupons : List Coupon)
    (a b : String) (ha : a ≠ "") (hb : b ≠ "")
    (hup : pyUpper a = pyUpper b) :
    couponStep total (some a) coupons = couponStep total (some b) coupons := by
  simp [couponStep, ha, hb, hup]

/-- Checkout only looks at the canonicalized coupon code. -/
theorem create_order_code_congr (items : List CartItem)
    (pf : String → Option Product) (coupons : List Coupon)
    (a b : String) (ha : a ≠ "") (hb : b ≠ "")
    (hup : pyUpper a = pyUpper b) :
    create_order items (some a) pf coupons =
      create_order items (some b) pf coupons := by
  unfold create_order
  cases resolveItems pf items 0 [] with
  | error e => rfl
  | ok p => simp [couponStep_code_congr p.1 coupons a b ha hb hup]

/-- Rewriting every coupon's `expires_at` commutes with the lookup:
the found document differs only in its `expires_at` field. -/
theorem findCoupon_map_expires (code : String) (coupons : List Coupon)
    (f : Coupon → Option ℤ) :
    findCoupon code (coupons.map (fun c => { c with expires_at := f c })) =
      (findCoupon code coupons).map (fun c => { c with expires_at := f c }) := by
  induction coupons with
  | nil => rfl
  | cons c rest ih =>
    by_cases hc : (c.code == code && c.active) = true
    · simp [findCoupon, List.find?, hc]
    · simp only [findCoupon, List.map_cons, List.find?] at *
      simp only [hc, Bool.false_eq_true, if_false] at *
      exact ih

/-- The coupon block never reads `expires_at`: rewriting that field on
every stored coupon leaves the block's outcome unchanged. -/
theorem couponStep_map_expires (total : ℚ) (coupon : Option String)
    (coupons : List Coupon) (f : Coupon → Option ℤ) :
    couponStep total coupon
        (coupons.map (fun c => { c with expires_at := f c })) =
      couponStep total coupon coupons := by
  unfold couponStep
  cases coupon with
  | none => rfl
  | some code =>
    by_cases hc : code = ""
    · simp [hc]
    · simp only [hc, if_false]
      rw [findCoupon_map_expires]
      cases findCoupon (pyUpper code) coupons with
      | none => rfl
      | some c => rfl

/-! ### Concrete fixtures used by the witnesses and counterexamples -/

/-- Product with a non-null, non-zero sale price. -/
def prodA : Product :=
  { title := "A", price := 100, sale_price := some 50, images := ["imgA"] }

/-- Product without a sale price. -/
def prodB : Product :=
  { title := "B", price := 30, sale_price := none, images := [] }

/-- Product whose sale price is present but equal to 0. -/
def prodZ : Product :=
  { title := "Z", price := 10, sale_price := some 0, images := [] }

def pidA : String := "a"

def pidB : String := "b"

def pidZ : String := "z"

/-- A small product collection. -/
def pfStore : String → Option Product := fun s =>
  if s = pidA then some prodA
  else if s = pidB then some prodB
  else if s = pidZ then some prodZ
  else none

/-- A one-product catalog that resolves every id to `prodA`. -/
def pfA : String → Option Product := fun _ => some prodA

/-- A one-product catalog that resolves every id to `prodB`. -/
def pfB : String → Option Product := fun _ => some prodB

/-- The spec's subtotal scenario: qty 2 of a 50.00 product and qty 1 of
a 30.00 product. -/
def itemsAB : List CartItem :=
  [{ product_id := pidA, quantity := 2 }, { product_id := pidB, quantity := 1 }]

/-- A single line item of quantity 1. -/
def itemsB : List CartItem := [{ product_id := pidB, quantity := 1 }]

/-- Two units of `prodA`, subtotal exactly 100. -/
def items2A : List CartItem := [{ product_id := pidA, quantity := 2 }]

/-- Active percent-10 coupon with minimum order 100. -/
def save10 : Coupon :=
  { code := "SAVE10", type := "percent", value := 10, min_order := 100,
    active := true, expires_at := none }

/-- Active flat coupon large enough to drive any small order negative. -/
def flat1000 : Coupon :=
  { code := "KILL", type := "flat", value := 1000, min_order := 0,
    active := true, expires_at := none }

/-- Active coupon with an unrecognized type string. -/
def myst : Coupon :=
  { code := "MYST", type := "mystery", value := 5, min_order := 0,
    active := true, expires_at := none }

/-- Active coupon stored under the empty code. -/
def emptyCoupon : Coupon :=
  { code := "", type := "flat", value := 10, min_order := 0,
    active := true, expires_at := none }

def codeLower : String := "save10"

def codeMixed : String := "Save10"

def codeCanon : String := "SAVE10"

def codeKill : String := "kill"

def codeMyst : String := "myst"

/-- Result of checking out `itemsAB` against `pfStore` with no coupon. -/
def resAB : OrderResult :=
  { items :=
      [{ product_id := pidA, title := "A", price := 50, quantity := 2,
         image := some "imgA" },
       { product_id := pidB, title := "B", price := 30, quantity := 1,
         image := none }]
    amount := 130, currency := "INR", coupon := none }

/-- Result of checking out `itemsAB` with the percent-10 coupon. -/
def resSave : OrderResult :=
  { items := resAB.items, amount := 117, currency := "INR",
    coupon := some "SAVE10" }

/-- Result of checking out `itemsB` with the oversized flat coupon. -/
def resClamped : OrderResult :=
  { items :=
      [{ product_id := pidB, title := "B", price := 30, quantity := 1,
         image := none }]
    amount := 0, currency := "INR", coupon := some "KILL" }

/-- Result of checking out `itemsB` with the unrecognized-type coupon. -/
def resMyst : OrderResult :=
  { items := resClamped.items, amount := 25, currency := "INR",
    coupon := some "MYST" }

/-- Result of checking out `itemsB` while supplying the empty coupon
code against a store holding an active empty-code coupon. -/
def resEmptyCode : OrderResult :=
  { items := resClamped.items, amount := 30, currency := "INR",
    coupon := none }

theorem create_order_itemsAB_eval :
    create_order itemsAB none pfStore [] = .ok resAB := by
  simp [create_order, resolveItems, couponStep, unitPrice, resolveItem,
    round2, itemsAB, pfStore, pidA, pidB, prodA, prodB, resAB]
  norm_num [round_eq]

theorem create_order_save10_eval :
    create_order itemsAB (some codeLower) pfStore [save10] = .ok resSave := by
  simp [create_order, resolveItems, couponStep, unitPrice, resolveItem,
    findCoupon, applyCoupon, round2, pyUpper, itemsAB, pfStore, pidA, pidB,
    prodA, prodB, save10, codeLower, resSave, resAB]
  norm_num [round_eq]

theorem create_order_clamped_eval :
    create_order itemsB (some codeKill) pfB [flat1000] = .ok resClamped := by
  simp [create_order, resolveItems, couponStep, unitPrice, resolveItem,
    findCoupon, applyCoupon, round2, pyUpper, itemsB, pfB, pidB, prodB,
    flat1000, codeKill, resClamped]
  norm_num [round_eq]

theorem create_order_myst_eval :
    create_order itemsB (some codeMyst) pfB [myst] = .ok resMyst := by
  simp [create_order, resolveItems, couponStep, unitPrice, resolveItem,
    findCoupon, applyCoupon, round2, pyUpper, itemsB, pfB, pidB, prodB,
    myst, codeMyst, resMyst, resClamped]
  norm_num [round_eq]

theorem create_order_emptyCode_eval :
    create_order itemsB (some ("")) pfB [emptyCoupon] = .ok resEmptyCode := by
  simp [create_order, resolveItems, couponStep, unitPrice, resolveItem,
    round2, itemsB, pfB, pidB, prodB, resEmptyCode, resClamped]
  norm_num [round_eq]

theorem checkoutSubtotal_itemsB_eval : checkoutSubtotal pfB itemsB = 30 := by
  simp [checkoutSubtotal, itemCost, itemsB, pfB, pidB, unitPrice, prodB]

/-! ### The claims -/

/-- C1: `create_order` fails with `ProductNotFound` as soon as any
product lookup for a requested line item returns absent; the result is
the error, so no order total is produced and (the insert being on the
success path only) nothing is persisted. -/
theorem c1_missing_product_aborts (items : List CartItem)
    (coupon : Option String) (pf : String → Option Product)
    (coupons : List Coupon)
    (hmiss : ∃ it ∈ items, pf it.product_id = none) :
    create_order items coupon pf coupons = .error .productNotFound :=
  (create_order_error_iff items coupon pf coupons).mpr hmiss

/-- C1 witness: a request whose product lookup is always absent aborts
with `ProductNotFound`. -/
theorem c1_witness :
    create_order itemsB none (fun _ => none) [] = .error .productNotFound :=
  c1_missing_product_aborts itemsB none (fun _ => none) []
    ⟨{ product_id := pidB, quantity := 1 }, by simp [itemsB], rfl⟩

/-- C2: on a successful checkout of a non-empty item list with no
coupon supplied, the final amount is the sum of unit price times
quantity over the line items, rounded to two decimals. -/
theorem c2_no_coupon_amount (items : List CartItem)
    (pf : String → Option Product) (coupons : List Coupon)
    (res : OrderResult) (hne : items ≠ [])
    (h : create_order items none pf coupons = .ok res) :
    res.amount = round2 (checkoutSubtotal pf items) := by
  obtain ⟨-, rfl⟩ := create_order_ok_inv items none pf coupons res h
  simp [couponStep]

/-- C2 witness: the spec's subtotal scenario, 2 × 50.00 + 1 × 30.00
with no coupon, yields final amount 130.00. -/
theorem c2_witness :
    resAB.amount = round2 (checkoutSubtotal pfStore itemsAB) ∧
    resAB.amount = 130 :=
  ⟨c2_no_coupon_amount itemsAB pfStore [] resAB (by simp [itemsAB])
      create_order_itemsAB_eval,
   rfl⟩

/-- C3 counterexample: the claim says the sale price is used for every
present non-null value including 0, but `sale_price or price` in the
source is falsy on 0, so a product with list price 10 and sale price 0
is priced at 10, not 0. -/
theorem c3_counterexample :
    prodZ.sale_price = some 0 ∧ unitPrice prodZ = 10 ∧
    ¬ (∀ (p : Product) (sp : ℚ), p.sale_price = some sp →
        unitPrice p = sp) := by
  refine ⟨rfl, by norm_num [unitPrice, prodZ], fun hclaim => ?_⟩
  have h := hclaim prodZ 0 rfl
  norm_num [unitPrice, prodZ] at h

/-- C3 amended: the unit price (also the price recorded in the emitted
line item) is the sale price whenever it is present, non-null and
non-zero; when the sale price is absent, null, or exactly 0, the list
price is used. -/
theorem c3_unit_price_semantics (p : Product) :
    (∀ sp : ℚ, p.sale_price = some sp → sp ≠ 0 → unitPrice p = sp) ∧
    (p.sale_price = none → unitPrice p = p.price) ∧
    (p.sale_price = some 0 → unitPrice p = p.price) ∧
    (∀ it : CartItem, (resolveItem it p).price = unitPrice p) := by
  refine ⟨?_, ?_, ?_, fun it => rfl⟩
  · intro sp hsp h0
    simp [unitPrice, hsp, h0]
  · intro hnone
    simp [unitPrice, hnone]
  · intro hzero
    simp [unitPrice, hzero]

/-- C3 witness: a 50 sale price is used, a missing sale price falls
back to the list price, and a 0 sale price falls back as well. -/
theorem c3_witness :
    unitPrice prodA = 50 ∧ unitPrice prodB = prodB.price ∧
    unitPrice prodZ = prodZ.price :=
  ⟨(c3_unit_price_semantics prodA).1 50 rfl (by norm_num),
   (c3_unit_price_semantics prodB).2.1 rfl,
   (c3_unit_price_semantics prodZ).2.2.1 rfl⟩

/-- C4: under the schema's price constraints (list and sale prices are
non-negative) and non-negative quantities, every successful checkout
has a non-negative final amount, whatever coupon is supplied. -/
theorem c4_amount_nonneg (items : List CartItem) (coupon : Option String)
    (pf : String → Option Product) (coupons : List Coupon)
    (res : OrderResult)
    (hprice : ∀ s p, pf s = some p →
      0 ≤ p.price ∧ ∀ sp, p.sale_price = some sp → 0 ≤ sp)
    (hqty : ∀ it ∈ items, 0 ≤ it.quantity)
    (h : create_order items coupon pf coupons = .ok res) :
    0 ≤ res.amount := by
  obtain ⟨-, rfl⟩ := create_order_ok_inv items coupon pf coupons res h
  exact round2_nonneg _
    (couponStep_fst_nonneg _ _ _
      (checkoutSubtotal_nonneg pf items hprice hqty))

/-- C4 witness: a flat-1000 coupon on a 30.00 order clamps to 0. -/
theorem c4_witness : 0 ≤ resClamped.amount ∧ resClamped.amount = 0 :=
  ⟨c4_amount_nonneg itemsB (some codeKill) pfB [flat1000] resClamped
      (by
        intro s p hp
        simp only [pfB, Option.some.injEq] at hp
        subst hp
        exact ⟨by norm_num [prodB], by intro sp hsp; simp [prodB] at hsp⟩)
      (by
        intro it hit
        simp only [itemsB, List.mem_singleton] at hit
        subst hit
        norm_num)
      create_order_clamped_eval,
   rfl⟩

/-- C5 counterexample: the claim's iff fails for the supplied code ""
when the store holds an active empty-code coupon whose threshold is
met: `if body.coupon:` is falsy on the empty string, so the lookup is
skipped and no discount is applied even though the canonical lookup
would find an applicable coupon. -/
theorem c5_counterexample :
    ¬ (∀ (items : List CartItem) (code : String)
        (pf : String → Option Product) (coupons : List Coupon)
        (res : OrderResult),
        create_order items (some code) pf coupons = .ok res →
        (res.coupon.isSome ↔
          ∃ c, findCoupon (pyUpper code) coupons = some c ∧
            c.min_order ≤ checkoutSubtotal pf items)) := by
  intro hclaim
  have h := hclaim itemsB "" pfB [emptyCoupon] resEmptyCode
    create_order_emptyCode_eval
  have happ : resEmptyCode.coupon.isSome := by
    refine h.mpr ⟨emptyCoupon, ?_, ?_⟩
    · rfl
    · rw [checkoutSubtotal_itemsB_eval]
      norm_num [emptyCoupon]
  simp [resEmptyCode] at happ

/-- C5 amended: when a coupon code is supplied, checkout still
succeeds whatever the coupon situation, and the discount is applied if
and only if the supplied code is non-empty and the canonical-uppercase
lookup finds an active coupon whose minimum order threshold is at most
the subtotal (the boundary subtotal = threshold applies); when the
code is empty or the coupon is missing, inactive, or below threshold,
the amount is the undiscounted rounded subtotal. -/
theorem c5_coupon_applies_iff (items : List CartItem) (code : String)
    (pf : String → Option Product) (coupons : List Coupon)
    (hall : ∀ it ∈ items, (pf it.product_id).isSome) :
    ∃ res, create_order items (some code) pf coupons = .ok res ∧
      (res.coupon.isSome ↔
        code ≠ "" ∧ ∃ c, findCoupon (pyUpper code) coupons = some c ∧
          c.min_order ≤ checkoutSubtotal pf items) ∧
      (res.coupon = none →
        res.amount = round2 (checkoutSubtotal pf items)) := by
  refine ⟨_, create_order_ok items (some code) pf coupons hall, ?_, ?_⟩ <;>
    · by_cases hc : code = ""
      · simp [couponStep, hc]
      · cases hfind : findCoupon (pyUpper code) coupons with
        | none => simp [couponStep, hc, hfind]
        | some c =>
          by_cases hth : c.min_order ≤ checkoutSubtotal pf items <;>
            simp [couponStep, hc, hfind, hth]

/-- C5 witness: boundary case, subtotal exactly 100.00 against a
minimum-order-100 coupon. -/
theorem c5_witness :
    ∃ res, create_order items2A (some codeLower) pfA [save10] = .ok res ∧
      (res.coupon.isSome ↔
        codeLower ≠ "" ∧
          ∃ c, findCoupon (pyUpper codeLower) [save10] = some c ∧
            c.min_order ≤ checkoutSubtotal pfA items2A) ∧
      (res.coupon = none →
        res.amount = round2 (checkoutSubtotal pfA items2A)) :=
  c5_coupon_applies_iff items2A codeLower pfA [save10]
    (fun _ _ => rfl)

/-- C6: when a coupon is applied, it is applied exactly once, the
resulting amount is the rounded `max 0 (subtotal * (1 - value/100))`
for a percent coupon and the rounded `max 0 (subtotal - value)` for a
flat coupon, and the applied coupon's stored code is recorded on the
order. -/
theorem c6_discount_applied_once (items : List CartItem) (code : String)
    (pf : String → Option Product) (coupons : List Coupon)
    (c : Coupon) (res : OrderResult)
    (h : create_order items (some code) pf coupons = .ok res)
    (hne : code ≠ "")
    (hfind : findCoupon (pyUpper code) coupons = some c)
    (hth : c.min_order ≤ checkoutSubtotal pf items) :
    res.coupon = some c.code ∧
    (c.type = "percent" →
      res.amount =
        round2 (max 0 (checkoutSubtotal pf items * (1 - c.value / 100)))) ∧
    (c.type = "flat" →
      res.amount = round2 (max 0 (checkoutSubtotal pf items - c.value))) := by
  obtain ⟨-, rfl⟩ := create_order_ok_inv items (some code) pf coupons res h
  refine ⟨by simp [couponStep, hne, hfind, hth], ?_, ?_⟩ <;>
    · intro hty
      simp [couponStep, hne, hfind, hth, applyCoupon, hty]

/-- C6 witness: the spec's percent scenario — subtotal 130.00 with the
percent-10 minimum-100 coupon gives amount 117.00 and records the
code. -/
theorem c6_witness :
    resSave.coupon = some save10.code ∧
    (save10.type = "percent" →
      resSave.amount =
        round2 (max 0 (checkoutSubtotal pfStore itemsAB *
          (1 - save10.value / 100)))) ∧
    (save10.type = "flat" →
      resSave.amount =
        round2 (max 0 (checkoutSubtotal pfStore itemsAB - save10.value))) :=
  c6_discount_applied_once itemsAB codeLower pfStore [save10] save10 resSave
    create_order_save10_eval (by decide) rfl
    (by
      simp [checkoutSubtotal, itemCost, itemsAB, pfStore, pidA, pidB,
        unitPrice, prodA, prodB, save10]
      norm_num)

/-- C7: coupon lookup is case-insensitive through canonical
uppercasing — supplying "save10", "Save10" or "SAVE10" to checkout
yields identical results against any catalog and coupon store. -/
theorem c7_case_insensitive (items : List CartItem)
    (pf : String → Option Product) (coupons : List Coupon) :
    create_order items (some codeLower) pf coupons =
      create_order items (some codeCanon) pf coupons ∧
    create_order items (some codeMixed) pf coupons =
      create_order items (some codeCanon) pf coupons :=
  ⟨create_order_code_congr items pf coupons codeLower codeCanon
      (by decide) (by decide) (by decide),
   create_order_code_congr items pf coupons codeMixed codeCanon
      (by decide) (by decide) (by decide)⟩

/-- C8: a successful checkout emits exactly one priced line item per
requested item, in request order: the output list is the pointwise
resolution of the input list. -/
theorem c8_items_in_request_order (items : List CartItem)
    (coupon : Option String) (pf : String → Option Product)
    (coupons : List Coupon) (res : OrderResult)
    (h : create_order items coupon pf coupons = .ok res) :
    res.items = items.map (resolveItemOpt pf) ∧
    res.items.length = items.length ∧
    ∀ i : ℕ, res.items[i]? = (items[i]?).map (resolveItemOpt pf) := by
  obtain ⟨-, rfl⟩ := create_order_ok_inv items coupon pf coupons res h
  exact ⟨rfl, by simp, fun i => by simp⟩

/-- C8 witness: the two-item checkout emits its two priced items in
request order. -/
theorem c8_witness :
    resAB.items = itemsAB.map (resolveItemOpt pfStore) ∧
    resAB.items.length = itemsAB.length ∧
    ∀ i : ℕ, resAB.items[i]? = (itemsAB[i]?).map (resolveItemOpt pfStore) :=
  c8_items_in_request_order itemsAB none pfStore [] resAB
    create_order_itemsAB_eval

/-- C9: coupon expiry is never consulted — rewriting the `expires_at`
field of every stored coupon (e.g. to a past instant) leaves the whole
checkout result unchanged, so an active threshold-meeting coupon is
applied regardless of `expires_at`. -/
theorem c9_expiry_never_consulted (items : List CartItem)
    (coupon : Option String) (pf : String → Option Product)
    (coupons : List Coupon) (f : Coupon → Option ℤ) :
    create_order items coupon pf
        (coupons.map (fun c => { c with expires_at := f c })) =
      create_order items coupon pf coupons := by
  unfold create_order
  cases resolveItems pf items 0 [] with
  | error e => rfl
  | ok p => simp [couponStep_map_expires]

/-- C10: an applied coupon whose type is any string other than
"percent" is treated as flat: the amount is the rounded
`max 0 (subtotal - value)` and its code is recorded. -/
theorem c10_nonpercent_is_flat (items : List CartItem) (code : String)
    (pf : String → Option Product) (coupons : List Coupon)
    (c : Coupon) (res : OrderResult)
    (h : create_order items (some code) pf coupons = .ok res)
    (hne : code ≠ "")
    (hfind : findCoupon (pyUpper code) coupons = some c)
    (htype : c.type ≠ "percent")
    (hth : c.min_order ≤ checkoutSubtotal pf items) :
    res.amount = round2 (max 0 (checkoutSubtotal pf items - c.value)) ∧
    res.coupon = some c.code := by
  obtain ⟨-, rfl⟩ := create_order_ok_inv items (some code) pf coupons res h
  simp [couponStep, hne, hfind, hth, applyCoupon, htype]

/-- C10 witness: an active coupon of type "mystery" subtracts its
value flat: 30.00 becomes 25.00. -/
theorem c10_witness :
    resMyst.amount = round2 (max 0 (checkoutSubtotal pfB itemsB - myst.value)) ∧
    resMyst.coupon = some myst.code :=
  c10_nonpercent_is_flat itemsB codeMyst pfB [myst] myst resMyst
    create_order_myst_eval (by decide) rfl (by decide)
    (by rw [checkoutSubtotal_itemsB_eval]; norm_num [myst])

end Checkout
